import Mathlib

/-!
Verification development for the nxtp SDK base (`NxtpSdkBase`).

The definitions below are a shallow embedding of the transfer-orchestration
logic of `NxtpSdkBase` (the auction pipeline of `getTransferQuote`, the
expiry bounds, `prepareTransfer`, and the relayer path of `fulfillTransfer`).
External collaborators (crypto recovery, chain reads, the message bus, the
indexer) are modelled as explicit oracle parameters; amounts (`BigNumber`
decimal strings in the source) are modelled as `Int`; addresses, hashes and
signatures are modelled as `String` in canonical form.
-/

namespace Nxtp

abbrev Address := String

abbrev ChainId := Nat

/-- Constant `AUCTION_TIMEOUT` (ms). -/
def AUCTION_TIMEOUT : Nat := 6000

/-- Constant `META_TX_TIMEOUT` (ms). -/
def META_TX_TIMEOUT : Nat := 300000

/-- The zero address (`constants.AddressZero` in the source). -/
def zeroAddress : Address := "0x0000000000000000000000000000000000000000"

/-- `AuctionBid` record, with the fields used by the SDK.  Amount-like fields
(decimal `BigNumber` strings in the source) are `Int`. -/
structure AuctionBid where
  user : Address
  router : Address
  initiator : Address
  sendingChainId : ChainId
  sendingAssetId : Address
  amount : Int
  receivingChainId : ChainId
  receivingAssetId : Address
  amountReceived : Int
  receivingAddress : Address
  transactionId : String
  expiry : Int
  callDataHash : String
  callTo : Address
  encryptedCallData : String
  bidExpiry : Int
deriving DecidableEq, Repr, Inhabited

/-- `AuctionResponse`: a bid together with the optional router signature and
the gas fee quoted in the receiving token. -/
structure AuctionResponse where
  bid : AuctionBid
  bidSignature : Option String
  gasFeeInReceivingToken : Int
deriving DecidableEq, Repr, Inhabited

/-- A message on the shared auction-response evt, already dispatched to the
inbox of the running auction: `{ data?: AuctionResponse; err?: any }`.
`err` records whether the `err` field was present. -/
structure AuctionMsg where
  data : Option AuctionResponse
  err : Bool
deriving DecidableEq, Repr, Inhabited

/-- Oracle environment for one `getTransferQuote` call: the bid-signer
recovery function and the per-router liquidity read on the (fixed)
receiving chain and receiving asset.  `none` models an RPC failure of
`getRouterLiquidity`. -/
structure QuoteEnv where
  recoverAuctionBid : AuctionBid → String → Address
  getRouterLiquidity : Address → Option Int

/-- Rejection reason for a bad router signature (source line 499). -/
def invalidRouterSigMsg : String := "Invalid router signature on bid"

/-- Rejection reason when the liquidity read throws (source line 524). -/
def liquidityErrorMsg : String := "Error getting router liquidity"

/-- Rejection reason for insufficient router liquidity (source line 512). -/
def liquidityLowMsg : String := "Router\x27s liquidity low"

/-- Rejection reason for the slippage gate (source line 540). -/
def invalidBidPriceMsg : String :=
  "Invalid bid price: price impact is more than the slippage tolerance"

/-- Modelled from the spec: `calculateExchangeAmount` of `@connext/nxtp-utils`
is not part of the given sources; per the spec (section 6, Numeric semantics)
it multiplies by the decimal rate using integer floor-division, and the caller
takes the integer portion.  The slippage tolerance is a percent string with
two fractional digits, represented here exactly as `bp` hundredths of a
percent, so the rate `1 - slippageTolerance/100` is `(10000 - bp) / 10000`.
`Int` division by the positive constant `10000` is floor division. -/
def calculateExchangeAmountFloor (amt : Int) (bp : Nat) : Int :=
  amt * (10000 - (bp : Int)) / 10000

/-- Per-bid validation of the open auction (source lines 494-555): router
signature over the bid must recover to the router, the router liquidity read
must succeed and cover `amountReceived`, and the slippage gate must accept.
A failing bid maps to its rejection reason (the source maps it to a string),
a surviving bid is returned unchanged. -/
def validateBid (env : QuoteEnv) (bp : Nat) (data : AuctionResponse) :
    Sum String AuctionResponse :=
  if env.recoverAuctionBid data.bid (data.bidSignature.getD "") ≠ data.bid.router then
    Sum.inl invalidRouterSigMsg
  else
    match env.getRouterLiquidity data.bid.router with
    | none => Sum.inl liquidityErrorMsg
    | some routerLiq =>
      if routerLiq < data.bid.amountReceived then
        Sum.inl liquidityLowMsg
      else if data.bid.amountReceived <
          calculateExchangeAmountFloor
            (data.bid.amountReceived - data.gasFeeInReceivingToken) bp then
        Sum.inl invalidBidPriceMsg
      else
        Sum.inr data

/-- Projection of the `(AuctionResponse | string)` union onto surviving bids
(the source filter `typeof x !== "string"`). -/
def bidOfResult : Sum String AuctionResponse → Option AuctionResponse
  | Sum.inr r => some r
  | Sum.inl _ => none

/-- Projection of the `(AuctionResponse | string)` union onto rejection
reasons (the source filter `typeof x === "string"`). -/
def msgOfResult : Sum String AuctionResponse → Option String
  | Sum.inl s => some s
  | Sum.inr _ => none

/-- The survivor list `valid` of the open auction, in arrival order. -/
def survivors (env : QuoteEnv) (bp : Nat) (rs : List AuctionResponse) :
    List AuctionResponse :=
  (rs.map (validateBid env bp)).filterMap bidOfResult

/-- The accumulated rejection reasons `invalid` of the open auction. -/
def rejections (env : QuoteEnv) (bp : Nat) (rs : List AuctionResponse) :
    List String :=
  (rs.map (validateBid env bp)).filterMap msgOfResult

/-- The ranking comparator of source line 564:
`BigNumber.from(b.bid.amountReceived).gt(a.bid.amountReceived) ? -1 : 1`. -/
def bidComparator (a b : AuctionResponse) : Int :=
  if a.bid.amountReceived < b.bid.amountReceived then -1 else 1

/-- One insertion step of the model of `Array.prototype.sort`: the new
element stops in front of the first element it compares negatively against,
and passes over (ends up after) every element it compares nonnegatively
against. -/
def jsInsert {α : Type} (c : α → α → Int) (x : α) : List α → List α
  | [] => [x]
  | y :: ys => if c x y < 0 then x :: y :: ys else y :: jsInsert c x ys

/-- Model of `Array.prototype.sort(comparator)` (stable since ES2019):
elements are inserted in arrival order, each placed after all elements it
does not compare strictly less than.  For a comparator that is consistent on
distinct keys this yields exactly the comparator-sorted order, with ties kept
in arrival order. -/
def jsSort {α : Type} (c : α → α → Int) (l : List α) : List α :=
  l.foldl (fun acc x => jsInsert c x acc) []

/-- The failure cause of an auction, before top-level wrapping. -/
inductive AuctionCause where
  | evtTimeout
  | noBids
  | noValidBids (reasons : String)
deriving DecidableEq, Repr

/-- Every failure inside the auction try-block of `getTransferQuote`
(source lines 567-572) is rethrown as `UnknownAuctionError` carrying the
underlying cause. -/
inductive QuoteError where
  | unknownAuctionError (cause : AuctionCause)
deriving DecidableEq, Repr

/-- The data extracted from one auction message by the evt pipes of
`getTransferQuote` (source lines 408-412, 424-429, 438-451): the `data`
field must be present and the `err` field absent. -/
def msgBid (m : AuctionMsg) : Option AuctionResponse :=
  match m.data with
  | some d => if m.err then none else some d
  | none => none

/-- The bid-collection stage `auctionBidsPromise` (source lines 405-457).
`msgs` is the sequence of messages dispatched to this inbox during the
auction window, in arrival order.
Dry-run: the first message carrying data and no error, or an evt timeout.
Preferred routers: the first such message whose router is preferred, waited
twice as long, or an evt timeout.
Open auction: all such messages, accumulated until the timer fires. -/
def collectBids (dryRun : Bool) (preferredRouters : List Address)
    (msgs : List AuctionMsg) : Except AuctionCause (List AuctionResponse) :=
  if dryRun then
    match (msgs.filterMap msgBid).head? with
    | some r => Except.ok [r]
    | none => Except.error AuctionCause.evtTimeout
  else if 0 < preferredRouters.length then
    match ((msgs.filterMap msgBid).filter
        (fun r => preferredRouters.contains r.bid.router)).head? with
    | some r => Except.ok [r]
    | none => Except.error AuctionCause.evtTimeout
  else
    Except.ok (msgs.filterMap msgBid)

/-- Validation and ranking of the collected bids (source lines 493-566):
map every response through per-bid validation, split survivors from
rejection reasons, raise `NoValidBids` with the comma-joined reasons when no
survivor remains, otherwise sort with the source comparator and take the
head.  The `[]` branch of the match is unreachable because `jsSort` permutes
a nonempty list. -/
def rankBids (env : QuoteEnv) (bp : Nat) (auctionResponses : List AuctionResponse) :
    Except AuctionCause AuctionResponse :=
  if (survivors env bp auctionResponses).isEmpty then
    Except.error (AuctionCause.noValidBids
      (String.intercalate "," (rejections env bp auctionResponses)))
  else
    match jsSort bidComparator (survivors env bp auctionResponses) with
    | [] => Except.error AuctionCause.noBids
    | chosen :: _ => Except.ok chosen

/-- The body of the auction try-block of `getTransferQuote` (source lines
480-566): await the collected bids, raise `NoBids` on an empty collection,
return the first response unvalidated in dry-run mode, otherwise validate
and rank. -/
def auctionSelect (env : QuoteEnv) (bp : Nat) (dryRun : Bool)
    (preferredRouters : List Address) (msgs : List AuctionMsg) :
    Except AuctionCause AuctionResponse :=
  match collectBids dryRun preferredRouters msgs with
  | Except.error c => Except.error c
  | Except.ok auctionResponses =>
    match auctionResponses with
    | [] => Except.error AuctionCause.noBids
    | r :: rest =>
      if dryRun then Except.ok r
      else rankBids env bp (r :: rest)

/-- The auction stage of `getTransferQuote` with the top-level catch
(source lines 480-572): any failure is wrapped as `UnknownAuctionError`
with the cause attached. -/
def getTransferQuote (env : QuoteEnv) (bp : Nat) (dryRun : Bool)
    (preferredRouters : List Address) (msgs : List AuctionMsg) :
    Except QuoteError AuctionResponse :=
  match auctionSelect env bp dryRun preferredRouters msgs with
  | Except.ok r => Except.ok r
  | Except.error c => Except.error (QuoteError.unknownAuctionError c)

/-- Utility `hoursToSeconds` of `packages/sdk/src/utils.ts`. -/
def hoursToSeconds (hours : Int) : Int := hours * 60 * 60

/-- Utility `daysToSeconds` of `packages/sdk/src/utils.ts`. -/
def daysToSeconds (days : Int) : Int := hoursToSeconds (days * 24)

/-- Utility `getExpiry`: the default expiry for new transfers,
3 days + 3 hours after the latest block timestamp. -/
def getExpiry (latestBlockTimestamp : Int) : Int :=
  latestBlockTimestamp + daysToSeconds 3 + hoursToSeconds 3

/-- Utility `getMinExpiryBuffer`: 2 days + 1 hour, in seconds. -/
def getMinExpiryBuffer : Int := daysToSeconds 2 + hoursToSeconds 1

/-- Utility `getMaxExpiryBuffer`: 4 days, in seconds. -/
def getMaxExpiryBuffer : Int := daysToSeconds 4

/-- The expiry gate of `getTransferQuote` (source lines 377-383): the call
raises `InvalidExpiry` exactly when this returns `true`. -/
def expiryInvalid (expiry blockTimestamp : Int) : Bool :=
  if expiry - blockTimestamp < getMinExpiryBuffer then true
  else if expiry - blockTimestamp > getMaxExpiryBuffer then true
  else false

/-- The `callDataHash` computed at quote time (source lines 386-389):
`callData` defaults to `"0x"` and is hashed with `keccak256` (modelled as an
abstract function parameter). -/
def quoteCallDataHash (keccak256 : String → String) (callData : Option String) : String :=
  keccak256 (callData.getD "0x")

/-- Oracle environment for one `prepareTransfer` call: subgraph sync state of
the two chains, the outcome of the ajv schema validation of the bid, the
configured-chain map, the receiving-chain `provider.getCode` read, the
transaction-manager address registry, and the external `encodeAuctionBid`. -/
structure PrepareEnv where
  syncedSending : Bool
  syncedReceiving : Bool
  schemaValid : Bool
  chainConfigured : ChainId → Bool
  getCode : Address → String
  getTransactionManagerAddress : ChainId → Address
  encodeAuctionBid : AuctionBid → String

/-- `InvariantTransactionData` as assembled by `prepareTransfer`
(source lines 684-698). -/
structure InvariantTransactionData where
  receivingChainTxManagerAddress : Address
  user : Address
  router : Address
  initiator : Address
  sendingAssetId : Address
  receivingAssetId : Address
  sendingChainFallback : Address
  callTo : Address
  receivingAddress : Address
  sendingChainId : ChainId
  receivingChainId : ChainId
  callDataHash : String
  transactionId : String
deriving DecidableEq, Repr, Inhabited

/-- `PrepareParams` handed to `transactionManager.prepare`
(source lines 699-706). -/
structure PrepareParams where
  txData : InvariantTransactionData
  encryptedCallData : String
  bidSignature : String
  encodedBid : String
  amount : Int
  expiry : Int
deriving DecidableEq, Repr, Inhabited

/-- The errors `prepareTransfer` can raise before emitting the prepare
request. -/
inductive PrepareError where
  | subgraphsNotSynced
  | invalidParamStructure
  | chainNotConfigured (chainId : ChainId)
  | invalidBidSignature
  | invalidCallTo
deriving DecidableEq, Repr

/-- The `PrepareParams` built by a successful `prepareTransfer`
(source lines 683-706): the invariant transaction data takes every field
from the bid, with `sendingChainFallback := user` and the receiving-chain
transaction manager address from the registry. -/
def buildPrepareParams (env : PrepareEnv) (transferParams : AuctionResponse) :
    PrepareParams :=
  { txData :=
      { receivingChainTxManagerAddress :=
          env.getTransactionManagerAddress transferParams.bid.receivingChainId
        user := transferParams.bid.user
        router := transferParams.bid.router
        initiator := transferParams.bid.initiator
        sendingAssetId := transferParams.bid.sendingAssetId
        receivingAssetId := transferParams.bid.receivingAssetId
        sendingChainFallback := transferParams.bid.user
        callTo := transferParams.bid.callTo
        receivingAddress := transferParams.bid.receivingAddress
        sendingChainId := transferParams.bid.sendingChainId
        receivingChainId := transferParams.bid.receivingChainId
        callDataHash := transferParams.bid.callDataHash
        transactionId := transferParams.bid.transactionId }
    encryptedCallData := transferParams.bid.encryptedCallData
    bidSignature := transferParams.bidSignature.getD ""
    encodedBid := env.encodeAuctionBid transferParams.bid
    amount := transferParams.bid.amount
    expiry := transferParams.bid.expiry }

/-- `prepareTransfer` (source lines 613-709): subgraph sync gate, ajv schema
gate, configured-chain gates, bid-signature presence gate (an absent or
empty `bidSignature` is falsy), then, only when `callTo` is not the zero
address, the receiving-chain contract-code gate (`!code || code === "0x"`
raises `InvalidCallTo`), and finally the prepare request construction. -/
def prepareTransfer (env : PrepareEnv) (transferParams : AuctionResponse) :
    Except PrepareError PrepareParams :=
  if !env.syncedSending || !env.syncedReceiving then
    Except.error PrepareError.subgraphsNotSynced
  else if !env.schemaValid then
    Except.error PrepareError.invalidParamStructure
  else if !env.chainConfigured transferParams.bid.sendingChainId then
    Except.error (PrepareError.chainNotConfigured transferParams.bid.sendingChainId)
  else if !env.chainConfigured transferParams.bid.receivingChainId then
    Except.error (PrepareError.chainNotConfigured transferParams.bid.receivingChainId)
  else if transferParams.bidSignature.getD "" = "" then
    Except.error PrepareError.invalidBidSignature
  else if transferParams.bid.callTo = zeroAddress then
    Except.ok (buildPrepareParams env transferParams)
  else if env.getCode transferParams.bid.callTo = ""
      ∨ env.getCode transferParams.bid.callTo = "0x" then
    Except.error PrepareError.invalidCallTo
  else
    Except.ok (buildPrepareParams env transferParams)

/-- A `ReceiverTransactionFulfilled` event as observed by the subgraph event
surface, stamped with its arrival time in milliseconds after the `waitFor`
registration in `fulfillTransfer`. -/
structure FulfilledEvent where
  time : Nat
  transactionId : String
  transactionHash : String
  receivingChainId : ChainId
deriving DecidableEq, Repr, Inhabited

/-- The meta-tx response assembled on a matching event
(source lines 834-842). -/
structure MetaTxResponse where
  transactionHash : String
  chainId : ChainId
deriving DecidableEq, Repr, Inhabited

/-- The failure of the relayer path of `fulfillTransfer`. -/
inductive FulfillError where
  | metaTxTimeout
deriving DecidableEq, Repr

/-- Modelled from the spec: `Subgraph.waitFor` (component C7, `EventMux`) is
not part of the given sources; per the spec it resolves to the first event
matching the filter that arrives after registration and before the timeout,
and rejects with an evt timeout otherwise.  `events` is the arrival-ordered
event timeline after registration. -/
def waitForModel (timeout : Nat) (filter : FulfilledEvent → Bool)
    (events : List FulfilledEvent) : Option FulfilledEvent :=
  events.find? (fun e => decide (e.time < timeout) && filter e)

/-- The relayer path of `fulfillTransfer` (`useRelayers = true`, source lines
806-845): register `waitFor(ReceiverTransactionFulfilled, META_TX_TIMEOUT)`
filtered by the transfer transaction id, publish the meta-tx request, and
either return the meta-tx response built from the first matching event or
rethrow the evt timeout as `MetaTxTimeout`. -/
def fulfillTransferRelayer (transactionId : String)
    (events : List FulfilledEvent) : Except FulfillError MetaTxResponse :=
  match waitForModel META_TX_TIMEOUT (fun e => e.transactionId = transactionId) events with
  | some response =>
    Except.ok { transactionHash := response.transactionHash
                chainId := response.receivingChainId }
  | none => Except.error FulfillError.metaTxTimeout

/-- A fixed bid used by the concrete scenarios below. -/
def baseBid : AuctionBid :=
  { user := "0xUser", router := "0xRouterA", initiator := "0xUser",
    sendingChainId := 4, sendingAssetId := "0xAssetSend", amount := 100,
    receivingChainId := 5, receivingAssetId := "0xAssetRecv",
    amountReceived := 100, receivingAddress := "0xReceiver",
    transactionId := "0xtx100", expiry := 1000000, callDataHash := "0x",
    callTo := zeroAddress, encryptedCallData := "0x", bidExpiry := 123456 }

/-- An oracle environment where every bid signature recovers to the bid
router and every liquidity read succeeds with ample liquidity. -/
def envOk : QuoteEnv :=
  { recoverAuctionBid := fun bid _ => bid.router,
    getRouterLiquidity := fun _ => some 1000000 }

/-- An oracle environment where every bid signature recovers to an address
that is not the bid router. -/
def envBadSig : QuoteEnv :=
  { recoverAuctionBid := fun _ _ => "0xAttacker",
    getRouterLiquidity := fun _ => some 1000000 }

/-- A response with `amountReceived = 100` and gas fee 1. -/
def resp100 : AuctionResponse :=
  { bid := baseBid, bidSignature := some "0xsig100", gasFeeInReceivingToken := 1 }

/-- A response with `amountReceived = 101` and gas fee 1. -/
def resp101 : AuctionResponse :=
  { bid := { baseBid with amountReceived := 101, transactionId := "0xtx101" },
    bidSignature := some "0xsig101", gasFeeInReceivingToken := 1 }

/-- A response with `amountReceived = 40` and gas fee 1. -/
def resp40 : AuctionResponse :=
  { bid := { baseBid with amountReceived := 40, transactionId := "0xtx40" },
    bidSignature := some "0xsig40", gasFeeInReceivingToken := 1 }

/-- Two well-formed auction messages arriving in order: first the bid worth
100, then the bid worth 101. -/
def msgsTwoBids : List AuctionMsg :=
  [ { data := some resp100, err := false }, { data := some resp101, err := false } ]

/-- A single well-formed auction message carrying the bid worth 40. -/
def msgsOneBid40 : List AuctionMsg :=
  [ { data := some resp40, err := false } ]

/-- A response whose bid carries a non-zero `callTo` address. -/
def respCallTo : AuctionResponse :=
  { bid := { baseBid with callTo := "0xCallToTarget", transactionId := "0xtxCallTo" },
    bidSignature := some "0xsigCallTo", gasFeeInReceivingToken := 1 }

/-- A `ReceiverTransactionFulfilled` event matching transaction `0xtx100`,
arriving 1000 ms after registration. -/
def evFulfilled : FulfilledEvent :=
  { time := 1000, transactionId := "0xtx100", transactionHash := "0xhash",
    receivingChainId := 5 }

/-- A prepare environment where every gate passes and the receiving chain
reports contract code everywhere. -/
def prepEnvOk : PrepareEnv :=
  { syncedSending := true, syncedReceiving := true, schemaValid := true,
    chainConfigured := fun _ => true, getCode := fun _ => "0x6001",
    getTransactionManagerAddress := fun _ => "0xTxManager",
    encodeAuctionBid := fun bid => bid.transactionId }

/-- Membership through one insertion step of the sort model. -/
theorem mem_jsInsert {α : Type} (c : α → α → Int) (x a : α) (l : List α) :
    a ∈ jsInsert c x l ↔ a = x ∨ a ∈ l := by
  induction l with
  | nil => simp [jsInsert]
  | cons y ys ih =>
    simp only [jsInsert]
    split
    · simp [List.mem_cons]
    · rw [List.mem_cons, ih, List.mem_cons]
      tauto

/-- Membership through the insertion fold of the sort model. -/
theorem mem_jsSort_aux {α : Type} (c : α → α → Int) (a : α) (l acc : List α) :
    a ∈ l.foldl (fun acc x => jsInsert c x acc) acc ↔ a ∈ l ∨ a ∈ acc := by
  induction l generalizing acc with
  | nil => simp
  | cons x xs ih =>
    rw [List.foldl_cons, ih, mem_jsInsert, List.mem_cons]
    tauto

/-- The sort model permutes memberships. -/
theorem mem_jsSort {α : Type} (c : α → α → Int) (a : α) (l : List α) :
    a ∈ jsSort c l ↔ a ∈ l := by
  unfold jsSort
  rw [mem_jsSort_aux]
  simp

/-- A surviving bid is returned unchanged and carries a router signature
that recovers to its router. -/
theorem validateBid_ok (env : QuoteEnv) (bp : Nat) (d r : AuctionResponse)
    (h : validateBid env bp d = Sum.inr r) :
    r = d ∧ env.recoverAuctionBid d.bid (d.bidSignature.getD "") = d.bid.router := by
  unfold validateBid at h
  split at h
  · simp at h
  · next hsig =>
    split at h
    · simp at h
    · split at h
      · simp at h
      · split at h
        · simp at h
        · cases h
          exact ⟨rfl, not_not.mp hsig⟩

/-- Every survivor arises from per-bid validation of a collected bid. -/
theorem mem_survivors (env : QuoteEnv) (bp : Nat) (rs : List AuctionResponse)
    (r : AuctionResponse) (h : r ∈ survivors env bp rs) :
    ∃ d, d ∈ rs ∧ validateBid env bp d = Sum.inr r := by
  unfold survivors at h
  rw [List.mem_filterMap] at h
  obtain ⟨x, hx, hbx⟩ := h
  rw [List.mem_map] at hx
  obtain ⟨d, hd, rfl⟩ := hx
  refine ⟨d, hd, ?_⟩
  cases hvd : validateBid env bp d with
  | inl s => rw [hvd] at hbx; simp [bidOfResult] at hbx
  | inr a =>
    rw [hvd] at hbx
    simp [bidOfResult] at hbx
    rw [hbx]

/-- Case analysis of the validation-and-ranking stage: either no bid
survives and `NoValidBids` carries the comma-joined rejection reasons, or
some survivor is returned. -/
theorem rankBids_cases (env : QuoteEnv) (bp : Nat) (rs : List AuctionResponse) :
    (survivors env bp rs = [] ∧
      rankBids env bp rs = Except.error (AuctionCause.noValidBids
        (String.intercalate "," (rejections env bp rs)))) ∨
    (survivors env bp rs ≠ [] ∧ ∃ r, rankBids env bp rs = Except.ok r ∧
      r ∈ survivors env bp rs) := by
  unfold rankBids
  cases hs : survivors env bp rs with
  | nil => left; exact ⟨rfl, rfl⟩
  | cons a as =>
    right
    refine ⟨by simp, ?_⟩
    have ha : a ∈ jsSort bidComparator (a :: as) :=
      (mem_jsSort bidComparator a (a :: as)).mpr (by simp)
    cases hj : jsSort bidComparator (a :: as) with
    | nil => rw [hj] at ha; simp at ha
    | cons c cs =>
      have hc : c ∈ a :: as :=
        (mem_jsSort bidComparator c (a :: as)).mp (by rw [hj]; simp)
      exact ⟨c, by simp [hj], hc⟩

/-- A successful `prepareTransfer` returns exactly the built prepare
parameters. -/
theorem prepareTransfer_ok (env : PrepareEnv) (transferParams : AuctionResponse)
    (out : PrepareParams) (h : prepareTransfer env transferParams = Except.ok out) :
    out = buildPrepareParams env transferParams := by
  unfold prepareTransfer at h
  split at h
  · simp at h
  · split at h
    · simp at h
    · split at h
      · simp at h
      · split at h
        · simp at h
        · split at h
          · simp at h
          · split at h
            · injection h with h
              exact h.symm
            · split at h
              · simp at h
              · injection h with h
                exact h.symm

/-- A successful quote comes from a successful auction selection. -/
theorem getTransferQuote_ok (env : QuoteEnv) (bp : Nat) (dryRun : Bool)
    (preferredRouters : List Address) (msgs : List AuctionMsg) (r : AuctionResponse)
    (h : getTransferQuote env bp dryRun preferredRouters msgs = Except.ok r) :
    auctionSelect env bp dryRun preferredRouters msgs = Except.ok r := by
  unfold getTransferQuote at h
  cases hs : auctionSelect env bp dryRun preferredRouters msgs with
  | ok a =>
    rw [hs] at h
    dsimp only [] at h
    injection h with h
    rw [h]
  | error c =>
    rw [hs] at h
    simp at h

/-- A successful non-dry-run auction selection factors through bid
collection and ranking. -/
theorem auctionSelect_false_ok (env : QuoteEnv) (bp : Nat)
    (preferredRouters : List Address) (msgs : List AuctionMsg) (r : AuctionResponse)
    (h : auctionSelect env bp false preferredRouters msgs = Except.ok r) :
    ∃ rs, collectBids false preferredRouters msgs = Except.ok rs ∧
      rankBids env bp rs = Except.ok r := by
  unfold auctionSelect at h
  cases hc : collectBids false preferredRouters msgs with
  | error c => rw [hc] at h; simp at h
  | ok rs =>
    rw [hc] at h
    cases rs with
    | nil => simp at h
    | cons a as =>
      simp only [Bool.false_eq_true, if_false] at h
      exact ⟨a :: as, rfl, h⟩

/-- Claim C1: evaluation of the open auction at the two-bid scenario of the
spec (bids with `amountReceived` 100 and 101 arriving in that order, both
passing every validation gate, slippage tolerance 0.10 percent).  Both bids
survive validation, yet the comparator of source line 564
(`BigNumber.from(b.bid.amountReceived).gt(a.bid.amountReceived) ? -1 : 1`)
orders the survivors ascending, so the auction returns the bid with the
MINIMUM `amountReceived` (100), not the maximum (101) that the claim and
the spec require. -/
theorem c1_code_selects_minimum :
    getTransferQuote envOk 10 false [] msgsTwoBids = Except.ok resp100 ∧
    survivors envOk 10 [resp100, resp101] = [resp100, resp101] ∧
    resp100.bid.amountReceived = 100 ∧ resp101.bid.amountReceived = 101 :=
  ⟨rfl, rfl, rfl, rfl⟩

/-- Claim C2 counterexample: an open auction collecting exactly one bid with
`amountReceived = 40` and `gasFeeInReceivingToken = 1` under slippage
tolerance 0.10 percent, with the signature and liquidity gates passing.
The slippage lower bound is `floor(39 * 0.999) = 38 ≤ 40`, so contrary to
the claim the slippage gate accepts the bid and the auction returns it
successfully instead of failing with `NoValidBids`. -/
theorem c2_counterexample :
    getTransferQuote envOk 10 false [] msgsOneBid40 = Except.ok resp40 ∧
    validateBid envOk 10 resp40 = Sum.inr resp40 ∧
    calculateExchangeAmountFloor (40 - 1) 10 = 38 :=
  ⟨rfl, rfl, rfl⟩

/-- Claim C2 (amended): for an open auction that collects exactly one bid
with `amountReceived = 40` and `gasFeeInReceivingToken = 1`, under slippage
tolerance 0.10 percent and with the signature and liquidity gates passing,
the slippage lower bound is 38, the slippage gate accepts the bid, and
`getTransferQuote` returns that bid. -/
theorem c2_amended_bid_passes (env : QuoteEnv) (resp : AuctionResponse) (m : AuctionMsg)
    (hamt : resp.bid.amountReceived = 40) (hgas : resp.gasFeeInReceivingToken = 1)
    (hrec : env.recoverAuctionBid resp.bid (resp.bidSignature.getD "") = resp.bid.router)
    (hliq : ∃ q, env.getRouterLiquidity resp.bid.router = some q ∧ 40 ≤ q)
    (hm : msgBid m = some resp) :
    calculateExchangeAmountFloor
      (resp.bid.amountReceived - resp.gasFeeInReceivingToken) 10 = 38 ∧
    validateBid env 10 resp = Sum.inr resp ∧
    getTransferQuote env 10 false [] [m] = Except.ok resp := by
  obtain ⟨q, hq, hq40⟩ := hliq
  have hlb : calculateExchangeAmountFloor
      (resp.bid.amountReceived - resp.gasFeeInReceivingToken) 10 = 38 := by
    rw [hamt, hgas]; rfl
  have hv : validateBid env 10 resp = Sum.inr resp := by
    unfold validateBid
    rw [if_neg (by simp [hrec]), hq]
    dsimp only []
    rw [if_neg (by omega), if_neg (by rw [hlb, hamt]; omega)]
  have hcol : ([m].filterMap msgBid) = [resp] := by
    simp [List.filterMap_cons, hm]
  have h1 : collectBids false [] [m] = Except.ok [resp] := by
    unfold collectBids
    simp [hcol]
  have hsurv : survivors env 10 [resp] = [resp] := by
    simp [survivors, hv, bidOfResult]
  have h2 : rankBids env 10 [resp] = Except.ok resp := by
    unfold rankBids
    rw [hsurv]
    simp [jsSort, jsInsert]
  refine ⟨hlb, hv, ?_⟩
  unfold getTransferQuote auctionSelect
  rw [h1]
  simp [h2]

/-- Claim C2 (amended) witness: the concrete single-bid auction of the
scenario. -/
theorem c2_amended_witness :
    calculateExchangeAmountFloor
      (resp40.bid.amountReceived - resp40.gasFeeInReceivingToken) 10 = 38 ∧
    validateBid envOk 10 resp40 = Sum.inr resp40 ∧
    getTransferQuote envOk 10 false [] [⟨some resp40, false⟩] = Except.ok resp40 :=
  c2_amended_bid_passes envOk resp40 ⟨some resp40, false⟩ rfl rfl rfl
    ⟨1000000, rfl, by norm_num⟩ rfl

/-- Claim C3 counterexample: in dry-run mode the first non-error response is
returned without any validation, so a quote whose bid signature recovers to
an address different from the bid router is still returned successfully. -/
theorem c3_counterexample :
    getTransferQuote envBadSig 10 true [] msgsOneBid40 = Except.ok resp40 ∧
    envBadSig.recoverAuctionBid resp40.bid (resp40.bidSignature.getD "")
      ≠ resp40.bid.router :=
  ⟨rfl, by decide⟩

/-- Claim C3 (amended): in every policy except dry-run (open auction and
preferred-router modes), a successfully returned `AuctionResponse` satisfies
`recoverAuctionBid(bid, bidSignature) == bid.router`; dry-run returns the
first non-error bid without signature validation. -/
theorem c3_amended_nondryrun_signature (env : QuoteEnv) (bp : Nat)
    (preferredRouters : List Address) (msgs : List AuctionMsg) (r : AuctionResponse)
    (h : getTransferQuote env bp false preferredRouters msgs = Except.ok r) :
    env.recoverAuctionBid r.bid (r.bidSignature.getD "") = r.bid.router := by
  have hsel := getTransferQuote_ok env bp false preferredRouters msgs r h
  obtain ⟨rs, hc, hrank⟩ := auctionSelect_false_ok env bp preferredRouters msgs r hsel
  rcases rankBids_cases env bp rs with ⟨hs0, he⟩ | ⟨hne0, q, hq, hqmem⟩
  · rw [hrank] at he
    simp at he
  · rw [hrank] at hq
    injection hq with hq
    rw [← hq] at hqmem
    obtain ⟨d, hd, hvd⟩ := mem_survivors env bp rs r hqmem
    obtain ⟨hrd, hrec⟩ := validateBid_ok env bp d r hvd
    rw [hrd]
    exact hrec

/-- Claim C3 (amended) witness: the single-bid open auction with a valid
signature. -/
theorem c3_amended_witness :
    envOk.recoverAuctionBid resp40.bid (resp40.bidSignature.getD "")
      = resp40.bid.router :=
  c3_amended_nondryrun_signature envOk 10 [] msgsOneBid40 resp40 rfl

/-- The slippage lower bound never exceeds the amount received, for
nonnegative amounts and gas fees and any tolerance within bounds. -/
theorem lowerBound_le (A g : Int) (bp : Nat) (hA : 0 ≤ A) (hg : 0 ≤ g)
    (hbp2 : bp ≤ 1500) : calculateExchangeAmountFloor (A - g) bp ≤ A := by
  unfold calculateExchangeAmountFloor
  have hbpI : (bp : Int) ≤ 1500 := by exact_mod_cast hbp2
  have hbp0 : (0 : Int) ≤ (bp : Int) := Int.ofNat_nonneg bp
  have hmul : (A - g) * (10000 - (bp : Int)) ≤ A * 10000 := by
    rcases le_or_lt 0 (A - g) with hpos | hneg
    · have h1 : (A - g) * (10000 - (bp : Int)) ≤ (A - g) * 10000 :=
        mul_le_mul_of_nonneg_left (by omega) hpos
      have h2 : (A - g) * 10000 ≤ A * 10000 :=
        mul_le_mul_of_nonneg_right (by omega) (by norm_num)
      omega
    · have h1 : (A - g) * (10000 - (bp : Int)) ≤ 0 :=
        mul_nonpos_of_nonpos_of_nonneg hneg.le (by omega)
      have h2 : (0 : Int) ≤ A * 10000 := mul_nonneg hA (by norm_num)
      omega
  calc (A - g) * (10000 - (bp : Int)) / 10000
      ≤ A * 10000 / 10000 := Int.ediv_le_ediv (by norm_num) hmul
    _ = A := Int.mul_ediv_cancel A (by norm_num)

/-- Claim C4: for every collected bid with nonnegative `amountReceived` and
`gasFeeInReceivingToken` and any slippage tolerance between 0.01 and 15.00
percent (1 to 1500 hundredths of a percent), the slippage lower bound
`floor((amountReceived - gasFee) * (1 - tolerance/100))` never exceeds
`amountReceived`, so per-bid validation never rejects with the
"Invalid bid price" reason: the slippage rejection branch is unreachable. -/
theorem c4_slippage_gate_unreachable (env : QuoteEnv) (bp : Nat)
    (data : AuctionResponse)
    (hA : 0 ≤ data.bid.amountReceived) (hg : 0 ≤ data.gasFeeInReceivingToken)
    (hbp1 : 1 ≤ bp) (hbp2 : bp ≤ 1500) :
    calculateExchangeAmountFloor
        (data.bid.amountReceived - data.gasFeeInReceivingToken) bp
      ≤ data.bid.amountReceived ∧
    validateBid env bp data ≠ Sum.inl invalidBidPriceMsg := by
  have hle := lowerBound_le data.bid.amountReceived data.gasFeeInReceivingToken
    bp hA hg hbp2
  refine ⟨hle, ?_⟩
  unfold validateBid
  split
  · intro h
    injection h with h
    exact absurd h (by decide)
  · split
    · intro h
      injection h with h
      exact absurd h (by decide)
    · split
      · intro h
        injection h with h
        exact absurd h (by decide)
      · split
        · next hcond => exact absurd hcond (not_lt.mpr hle)
        · intro h
          exact Sum.noConfusion h

/-- Claim C4 witness: the bid worth 40 with gas fee 1 at tolerance 0.10
percent. -/
theorem c4_witness :
    calculateExchangeAmountFloor
        (resp40.bid.amountReceived - resp40.gasFeeInReceivingToken) 10
      ≤ resp40.bid.amountReceived ∧
    validateBid envOk 10 resp40 ≠ Sum.inl invalidBidPriceMsg :=
  c4_slippage_gate_unreachable envOk 10 resp40 (by decide) (by decide)
    (by decide) (by decide)

/-- Claim C5: in the open auction, per-bid failures only remove the failing
bid (the survivor list is a filtration of the collected list and a
remaining survivor is returned), and `NoValidBids`, carrying the
comma-joined accumulated rejection reasons, is raised exactly when the
survivor set is empty while at least one bid was collected. -/
theorem c5_novalidbids_accumulation (env : QuoteEnv) (bp : Nat)
    (msgs : List AuctionMsg) :
    (∀ s, getTransferQuote env bp false [] msgs =
        Except.error (QuoteError.unknownAuctionError (AuctionCause.noValidBids s)) →
      msgs.filterMap msgBid ≠ [] ∧ survivors env bp (msgs.filterMap msgBid) = [] ∧
      s = String.intercalate "," (rejections env bp (msgs.filterMap msgBid))) ∧
    (msgs.filterMap msgBid ≠ [] → survivors env bp (msgs.filterMap msgBid) = [] →
      getTransferQuote env bp false [] msgs =
        Except.error (QuoteError.unknownAuctionError (AuctionCause.noValidBids
          (String.intercalate "," (rejections env bp (msgs.filterMap msgBid)))))) ∧
    (survivors env bp (msgs.filterMap msgBid) ≠ [] →
      ∃ r, getTransferQuote env bp false [] msgs = Except.ok r ∧
        r ∈ survivors env bp (msgs.filterMap msgBid)) := by
  have hcol : collectBids false [] msgs = Except.ok (msgs.filterMap msgBid) := rfl
  cases hl : msgs.filterMap msgBid with
  | nil =>
    rw [hl] at hcol
    have hq : getTransferQuote env bp false [] msgs =
        Except.error (QuoteError.unknownAuctionError AuctionCause.noBids) := by
      unfold getTransferQuote auctionSelect
      rw [hcol]
    refine ⟨?_, ?_, ?_⟩
    · intro s hs
      rw [hq] at hs
      simp at hs
    · intro hne _
      exact absurd rfl hne
    · intro hsne
      exact absurd (by simp [survivors]) hsne
  | cons a as =>
    rw [hl] at hcol
    have hsel : auctionSelect env bp false [] msgs = rankBids env bp (a :: as) := by
      unfold auctionSelect
      rw [hcol]
      simp
    have hq : getTransferQuote env bp false [] msgs =
        (match rankBids env bp (a :: as) with
          | Except.ok r => Except.ok r
          | Except.error c => Except.error (QuoteError.unknownAuctionError c)) := by
      unfold getTransferQuote
      rw [hsel]
    rcases rankBids_cases env bp (a :: as) with ⟨hs0, he⟩ | ⟨hne0, r, hr, hrmem⟩
    · have hqq : getTransferQuote env bp false [] msgs =
          Except.error (QuoteError.unknownAuctionError (AuctionCause.noValidBids
            (String.intercalate "," (rejections env bp (a :: as))))) := by
        rw [hq, he]
      refine ⟨?_, ?_, ?_⟩
      · intro s hs
        rw [hqq] at hs
        simp only [Except.error.injEq, QuoteError.unknownAuctionError.injEq,
          AuctionCause.noValidBids.injEq] at hs
        exact ⟨by simp, hs0, hs.symm⟩
      · intro _ _
        exact hqq
      · intro hsne
        exact absurd hs0 hsne
    · have hqq : getTransferQuote env bp false [] msgs = Except.ok r := by
        rw [hq, hr]
      refine ⟨?_, ?_, ?_⟩
      · intro s hs
        rw [hqq] at hs
        simp at hs
      · intro _ hse
        exact absurd hse hne0
      · intro _
        exact ⟨r, hqq, hrmem⟩

/-- Claim C5 witness: a single collected bid whose signature gate fails,
yielding `NoValidBids` with the accumulated reason. -/
theorem c5_witness :
    getTransferQuote envBadSig 10 false [] msgsOneBid40 =
      Except.error (QuoteError.unknownAuctionError (AuctionCause.noValidBids
        (String.intercalate ","
          (rejections envBadSig 10 (msgsOneBid40.filterMap msgBid))))) :=
  (c5_novalidbids_accumulation envBadSig 10 msgsOneBid40).2.1 (by decide) (by decide)

/-- Claim C6: every successful `prepareTransfer` builds invariant
transaction data with `sendingChainFallback` equal to the bid user, and with
`callDataHash` taken from the bid; when the bid carries the hash computed at
quote time (`keccak256` of the supplied `callData`, defaulting to `"0x"`),
the built `callDataHash` equals `keccak256` of that quote-time `callData`. -/
theorem c6_prepare_invariants (keccak256 : String → String) (env : PrepareEnv)
    (transferParams : AuctionResponse) (out : PrepareParams)
    (callData : Option String)
    (h : prepareTransfer env transferParams = Except.ok out)
    (hq : transferParams.bid.callDataHash = quoteCallDataHash keccak256 callData) :
    out.txData.sendingChainFallback = transferParams.bid.user ∧
    out.txData.callDataHash = keccak256 (callData.getD "0x") := by
  have hb := prepareTransfer_ok env transferParams out h
  subst hb
  refine ⟨rfl, ?_⟩
  show transferParams.bid.callDataHash = keccak256 (callData.getD "0x")
  rw [hq]
  rfl

/-- Claim C6 witness: a concrete successful prepare with no call data. -/
theorem c6_witness :
    (buildPrepareParams prepEnvOk resp100).txData.sendingChainFallback
      = resp100.bid.user ∧
    (buildPrepareParams prepEnvOk resp100).txData.callDataHash = "0x" :=
  c6_prepare_invariants (fun s => s) prepEnvOk resp100
    (buildPrepareParams prepEnvOk resp100) none rfl rfl

/-- The expiry gate fires exactly outside the buffer window. -/
theorem expiryInvalid_iff (expiry blockTimestamp : Int) :
    expiryInvalid expiry blockTimestamp = true ↔
      expiry - blockTimestamp < getMinExpiryBuffer ∨
      expiry - blockTimestamp > getMaxExpiryBuffer := by
  unfold expiryInvalid
  split_ifs with h1 h2 <;> simp_all

/-- Claim C7: `getTransferQuote` raises `InvalidExpiry` exactly when
`expiry - now` is below 2 days + 1 hour (176400 s) or above 4 days
(345600 s), and both boundary values are accepted. -/
theorem c7_expiry_bounds (expiry blockTimestamp : Int) :
    (expiryInvalid expiry blockTimestamp = true ↔
      expiry - blockTimestamp < getMinExpiryBuffer ∨
      expiry - blockTimestamp > getMaxExpiryBuffer) ∧
    getMinExpiryBuffer = 176400 ∧ getMaxExpiryBuffer = 345600 ∧
    expiryInvalid (blockTimestamp + getMinExpiryBuffer) blockTimestamp = false ∧
    expiryInvalid (blockTimestamp + getMaxExpiryBuffer) blockTimestamp = false := by
  refine ⟨expiryInvalid_iff expiry blockTimestamp, by decide, by decide, ?_, ?_⟩
  · rw [Bool.eq_false_iff, Ne, expiryInvalid_iff]
    unfold getMinExpiryBuffer getMaxExpiryBuffer daysToSeconds hoursToSeconds
    omega
  · rw [Bool.eq_false_iff, Ne, expiryInvalid_iff]
    unfold getMinExpiryBuffer getMaxExpiryBuffer daysToSeconds hoursToSeconds
    omega

/-- Claim C7 witness: the gate evaluated at the boundaries over timestamp
zero. -/
theorem c7_witness :
    (expiryInvalid 176400 0 = true ↔
      (176400 : Int) - 0 < getMinExpiryBuffer ∨
      (176400 : Int) - 0 > getMaxExpiryBuffer) ∧
    getMinExpiryBuffer = 176400 ∧ getMaxExpiryBuffer = 345600 ∧
    expiryInvalid (0 + getMinExpiryBuffer) 0 = false ∧
    expiryInvalid (0 + getMaxExpiryBuffer) 0 = false :=
  c7_expiry_bounds 176400 0

/-- Claim C8: when `callTo` is not the zero address and the receiving-chain
provider reports empty contract code (empty string or `"0x"`),
`prepareTransfer` raises `InvalidCallTo`; when `callTo` is the zero address
the result does not depend on the contract-code oracle at all. -/
theorem c8_callto_gate (env : PrepareEnv) (transferParams : AuctionResponse)
    (g : Address → String)
    (hs1 : env.syncedSending = true) (hs2 : env.syncedReceiving = true)
    (hschema : env.schemaValid = true)
    (hc1 : env.chainConfigured transferParams.bid.sendingChainId = true)
    (hc2 : env.chainConfigured transferParams.bid.receivingChainId = true)
    (hsig : transferParams.bidSignature.getD "" ≠ "") :
    (transferParams.bid.callTo ≠ zeroAddress →
      env.getCode transferParams.bid.callTo = ""
        ∨ env.getCode transferParams.bid.callTo = "0x" →
      prepareTransfer env transferParams = Except.error PrepareError.invalidCallTo) ∧
    (transferParams.bid.callTo = zeroAddress →
      prepareTransfer { env with getCode := g } transferParams =
        prepareTransfer env transferParams) := by
  constructor
  · intro hz hcode
    unfold prepareTransfer
    simp [hs1, hs2, hschema, hc1, hc2, hsig, hz, hcode]
  · intro hz
    unfold prepareTransfer
    dsimp only []
    rw [hz]
    simp [hs1, hs2, hschema, hc1, hc2, hsig, buildPrepareParams]

/-- Claim C8 witness: a bid whose `callTo` is a non-zero address at which
the provider reports code `"0x"`. -/
theorem c8_witness :
    prepareTransfer { prepEnvOk with getCode := fun _ => "0x" } respCallTo =
      Except.error PrepareError.invalidCallTo :=
  (c8_callto_gate { prepEnvOk with getCode := fun _ => "0x" } respCallTo
    (fun _ => "") rfl rfl rfl rfl rfl (by decide)).1 (by decide) (Or.inr rfl)

/-- Claim C9: with `useRelayers = true`, `fulfillTransfer` rejects with
`MetaTxTimeout` exactly when no `ReceiverTransactionFulfilled` event whose
transaction id matches the transfer arrives within `META_TX_TIMEOUT`
(300000 ms) of registration, and the first matching event before the
deadline yields the meta-tx response built from it. -/
theorem c9_metatx_timeout (transactionId : String) (events : List FulfilledEvent) :
    META_TX_TIMEOUT = 300000 ∧
    (fulfillTransferRelayer transactionId events
        = Except.error FulfillError.metaTxTimeout ↔
      ∀ e ∈ events, e.time < META_TX_TIMEOUT → e.transactionId ≠ transactionId) ∧
    (∀ e, waitForModel META_TX_TIMEOUT
        (fun x => x.transactionId = transactionId) events = some e →
      fulfillTransferRelayer transactionId events =
        Except.ok { transactionHash := e.transactionHash
                    chainId := e.receivingChainId }) := by
  refine ⟨rfl, ?_, ?_⟩
  · unfold fulfillTransferRelayer
    cases hw : waitForModel META_TX_TIMEOUT
        (fun e => e.transactionId = transactionId) events with
    | some e =>
      constructor
      · intro h
        simp at h
      · intro hall
        exfalso
        unfold waitForModel at hw
        have hp := List.find?_some hw
        have hmem := List.mem_of_find?_eq_some hw
        simp only [Bool.and_eq_true, decide_eq_true_eq] at hp
        exact hall e hmem hp.1 hp.2
    | none =>
      constructor
      · intro _ e he hlt
        unfold waitForModel at hw
        have hne := List.find?_eq_none.mp hw e he
        simp only [Bool.and_eq_true, decide_eq_true_eq, not_and] at hne
        exact hne hlt
      · intro _
        rfl
  · intro e hw
    unfold fulfillTransferRelayer
    rw [hw]

/-- Claim C9 witness: a matching event arriving 1000 ms after registration
yields the meta-tx response. -/
theorem c9_witness :
    fulfillTransferRelayer "0xtx100" [evFulfilled] =
      Except.ok { transactionHash := "0xhash", chainId := 5 } :=
  (c9_metatx_timeout "0xtx100" [evFulfilled]).2.2 evFulfilled rfl

/-- Claim C10: the default expiry (now + 3 days + 3 hours) always lies
strictly inside the accepted window, so a quote with omitted expiry never
raises `InvalidExpiry`. -/
theorem c10_default_expiry_safe (blockTimestamp : Int) :
    expiryInvalid (getExpiry blockTimestamp) blockTimestamp = false ∧
    getMinExpiryBuffer < getExpiry blockTimestamp - blockTimestamp ∧
    getExpiry blockTimestamp - blockTimestamp < getMaxExpiryBuffer := by
  refine ⟨?_, ?_, ?_⟩
  · rw [Bool.eq_false_iff, Ne, expiryInvalid_iff]
    unfold getExpiry getMinExpiryBuffer getMaxExpiryBuffer daysToSeconds hoursToSeconds
    omega
  · unfold getExpiry getMinExpiryBuffer daysToSeconds hoursToSeconds
    omega
  · unfold getExpiry getMaxExpiryBuffer daysToSeconds hoursToSeconds
    omega

end Nxtp
